import Mathlib

/-!
Verification of the charm layer in `lib/charms/layer/azure.py` (the
`charm-azure` repository).

The module is shell-out glue: every operation calls the external `az`
command-line tool (and the Juju hook tool `credential-get`), parses JSON
results, and keeps a little state in a local key-value store
(`charmhelpers.core.unitdata.kv`).  The embedding below is a shallow one:

* the outside world (the `az` subprocess, `urlopen`, the role files under
  `files/roles/`, the `json`/`yaml`/`base64` library routines, the
  `credential-get` hook tool and the charm config) is an explicit
  environment `Env` of oracle functions;
* the key-value store is an association list from keys to JSON values,
  passed and returned explicitly (`kv().get` returns a fresh decoded copy
  on every call, so mutating the returned dictionary does not change the
  store unless `kv().set` is called — exactly as in `charmhelpers`);
* Python exceptions are an inductive type `Exn`; a function that can raise
  returns `Except Exn`;
* every subprocess invocation of `az` is recorded in a trace (the `calls`
  field of an `Outcome`), so claims that count invocations are statable.

Each definition is translated from the source function of the same name.
Deliberate modelling notes are recorded in the doc comment of the
definition they concern.
-/

namespace Az

/-! ## Python string primitives used by the source -/

/-- Whether `p` occurs as a contiguous run inside `s`. -/
def listInfix (p : List Char) : List Char → Bool
  | [] => p.isEmpty
  | c :: rest => p.isPrefixOf (c :: rest) || listInfix p rest

/-- Membership test of Python's `needle in haystack` on strings:
`needle` occurs as a contiguous substring of `haystack`. -/
def pyIn (needle haystack : String) : Bool :=
  listInfix needle.data haystack.data

/-- The characters Python's `str.strip()` removes: space, tab, newline,
carriage return, vertical tab and form feed. -/
def pySpace (c : Char) : Bool :=
  c == ' ' || c == Char.ofNat 9 || c == Char.ofNat 10 || c == Char.ofNat 13
    || c == Char.ofNat 11 || c == Char.ofNat 12

/-- Model of Python's `str.strip()`: drop whitespace from both ends. -/
def pyStrip (s : String) : String :=
  ⟨((s.data.dropWhile pySpace).reverse.dropWhile pySpace).reverse⟩

/-- ASCII lowercasing of one character (header-name comparison of
`email.message.Message` is ASCII case-insensitive). -/
def asciiLower (c : Char) : Char :=
  if 'A' ≤ c && c ≤ 'Z' then Char.ofNat (c.toNat + 32) else c

/-- Fuel-driven worker for `subLit`.  One unit of fuel is spent per scan
position, and each step consumes at least one character, so fuel equal to
the length of the scanned list never runs out. -/
def subLitAux (p r : List Char) : Nat → List Char → List Char
  | 0, s => s
  | _, [] => []
  | fuel + 1, c :: s =>
    if !p.isEmpty && p.isPrefixOf (c :: s) then
      r ++ subLitAux p r fuel (s.drop (p.length - 1))
    else
      c :: subLitAux p r fuel s

/-- Model of `re.sub(pat, repl, s)` for a non-empty pattern without
regular-expression metacharacters (the only way the source uses it): a
single left-to-right scan replacing non-overlapping occurrences, never
rescanning the text inserted for an earlier match.  An empty pattern is
returned unchanged (Python would interleave `repl` everywhere; the source
never substitutes an empty credential on purpose, and theorems about this
point carry explicit non-emptiness hypotheses). -/
def subLit (p r s : List Char) : List Char :=
  subLitAux p r s.length s

/-- String-level wrapper of `subLit`. -/
def pyStrSub (pat repl s : String) : String :=
  ⟨subLit pat.data repl.data s.data⟩

/-- Fuel-driven worker for `occCount`, with the same scan as `subLitAux`. -/
def occCountAux (p : List Char) : Nat → List Char → Nat
  | 0, _ => 0
  | _, [] => 0
  | fuel + 1, c :: s =>
    if !p.isEmpty && p.isPrefixOf (c :: s) then
      1 + occCountAux p fuel (s.drop (p.length - 1))
    else
      occCountAux p fuel s

/-- Number of non-overlapping leftmost occurrences of `p` in `s` (the
occurrences the scan of `subLit` replaces). -/
def occCount (p s : List Char) : Nat :=
  occCountAux p s.length s

/-- Python `s[:j]` for an `int` bound `j` (a negative bound counts from the
end; out-of-range bounds clamp). -/
def pySliceTo (s : List Char) (j : Int) : List Char :=
  if j < 0 then s.take (s.length - (-j).toNat) else s.take j.toNat

/-- Python `s[i:]` for an `int` bound `i` (a negative bound counts from the
end; out-of-range bounds clamp).  In particular `i = 0` — which is what
Python's `s[-taill:]` evaluates to when `taill == 0`, since `-0 == 0` —
returns the whole string. -/
def pySliceFrom (s : List Char) (i : Int) : List Char :=
  if i < 0 then s.drop (s.length - (-i).toNat) else s.drop i.toNat

/-- The double-quote character, written by code point. -/
def quoteChar : Char := Char.ofNat 34

/-- The Python format placeholder (an opening and a closing brace),
written by code points. -/
def bracePair : String := ⟨[Char.ofNat 123, Char.ofNat 125]⟩

/-! ## JSON values, exceptions, the key-value store -/

/-- JSON values, as `json.loads` produces them and `kv()` stores them. -/
inductive Json where
  | null
  | bool (b : Bool)
  | num (n : Int)
  | str (s : String)
  | arr (items : List Json)
  | obj (fields : List (String × Json))

/-- Python exceptions the embedded code can raise or catch.  `azureError`
is the module's own `AzureError`; the rest are standard exceptions
(`FileNotFoundError`, `subprocess.CalledProcessError`, `ValueError` for
`json`/`yaml`/`base64` failures, `KeyError`, `TypeError`,
`AttributeError`, `IndexError`, and `urllib.error.URLError` for a failed
`urlopen` that is not an `HTTPError`). -/
inductive Exn where
  | azureError (msg : String)
  | fileNotFound
  | calledProcessError (stderr : String)
  | valueError (msg : String)
  | keyError (k : String)
  | typeError (msg : String)
  | attributeError (msg : String)
  | indexError
  | urlError (msg : String)

/-- The local key-value store of `charmhelpers.core.unitdata`: an
association list from keys to JSON values, first binding wins. -/
def Store := List (String × Json)

/-- Store lookup (`kv().get(key)` without a default: `none` models the
`None` Python returns for a missing key). -/
def kvGet (st : Store) (k : String) : Option Json :=
  List.lookup k st

/-- Store update, `kv().set(key, value)`: the new binding replaces any
old one (the store is a map; binding order is not observable through
`kvGet`). -/
def kvSet (st : Store) (k : String) (v : Json) : Store :=
  (k, v) :: List.filter (fun e => !(e.1 == k)) st

/-- Python dict item assignment `d[k] = v` on the fields of a JSON
object: replace the binding in place if the key is present (keys are
unique in a decoded object), append it otherwise. -/
def setField (fs : List (String × Json)) (k : String) (v : Json) :
    List (String × Json) :=
  match fs with
  | [] => [(k, v)]
  | e :: rest => if e.1 = k then (k, v) :: rest else e :: setField rest k v

/-- Python subscription `j[k]` on a decoded JSON value: field lookup on an
object, `KeyError` when the key is missing, `TypeError` on a value that is
not subscriptable by a string. -/
def jIndex (j : Json) (k : String) : Except Exn Json :=
  match j with
  | .obj fs =>
    match List.lookup k fs with
    | some v => .ok v
    | none => .error (.keyError k)
  | .str _ => .error (.typeError "string indices must be integers")
  | _ => .error (.typeError "value is not subscriptable")

/-- Require a decoded JSON value to be a string (the source passes such
values to `subprocess.run` and `str.format`, which reject other types). -/
def asStr (j : Json) : Except Exn String :=
  match j with
  | .str s => .ok s
  | _ => .error (.typeError "expected a str")

/-- Python truthiness of a decoded JSON value. -/
def jFalsy : Json → Bool
  | .null => true
  | .bool b => !b
  | .num n => n == 0
  | .str s => s == ""
  | .arr items => items.isEmpty
  | .obj fields => fields.isEmpty

/-- Python truthiness of `d.get(k)`: `None` (absent) is falsy. -/
def truthy : Option Json → Bool
  | none => false
  | some v => !jFalsy v

/-- Model of Python `s.format(arg)` as the source uses it: the role files
hold at most one plain `{}` placeholder.  With two or more placeholders
and a single argument Python raises `IndexError`; other format directives
do not occur in this code path and are out of the model. -/
def pyFormat (s arg : String) : Except Exn String :=
  if occCount bracePair.data s.data ≥ 2 then .error .indexError
  else .ok (pyStrSub bracePair arg s)

/-! ## The environment: subprocesses, HTTP, libraries, files, config -/

/-- What `subprocess.run` captures from one finished process. -/
structure ProcResult where
  returncode : Int
  stdout : String
  stderr : String

/-- Outcome of `urlopen(url)`: a successful response, an `HTTPError`
carrying the error response's headers, or some other failure
(`URLError` etc.) that no handler in the module catches. -/
inductive UrlResult where
  | success
  | httpError (headers : List (String × String))
  | failure (msg : String)

/-- Outcome of `subprocess.run(['credential-get'], check=True, ...)`:
the hook tool may be absent (`FileNotFoundError`), exit nonzero
(`subprocess.CalledProcessError`, as `check=True`), or print YAML. -/
inductive CredGetResult where
  | notFound
  | failed (stderr : String)
  | succeeded (stdout : String)

/-- The world outside the module, as oracle functions: the `az` subprocess
(keyed by its full argument vector), `urlopen`, the `json`, `yaml` and
`base64` library routines, the role files under `files/roles/`, the
`credential-get` hook tool and the charm's `credentials` config value
(`""` models an unset or falsy value). -/
structure Env where
  az : List String → ProcResult
  urlopen : String → UrlResult
  jsonLoads : String → Except String Json
  jsonDumps : Json → String
  yamlLoad : String → Except String Json
  b64decode : String → Except String String
  roleFile : String → Except String String
  credentialGet : CredGetResult
  configCredentials : String

/-- Result of one embedded operation: its value or the exception it
raises, the key-value store it leaves behind, and the argument vectors of
the `az` subprocess invocations it made, in order.  Invocations made and
store writes committed before an exception was raised stay visible. -/
structure Outcome (α : Type) where
  res : Except Exn α
  store : Store
  calls : List (List String)

/-! ## The `az` wrapper `_azure` -/

/-- The argument vector `_azure(cmd, *args)` hands to `subprocess.run`. -/
def azArgv (cmd : String) (args : List String) : List String :=
  "az" :: cmd :: args

/-- Translation of `_azure` (lines 244-261): run `az`, strip both output
streams, raise `AzureError` with the stripped stderr on a nonzero return
code, otherwise return the stripped stderr when `return_stderr` is set,
the JSON-parsed stdout when stdout is non-empty, and the empty string
otherwise.  A `json.loads` failure becomes a `ValueError`, which the
caller of `_azure` does not catch.  The single subprocess invocation this
makes is `azArgv cmd args`; callers record it in their `calls` trace. -/
def azure (env : Env) (cmd : String) (args : List String)
    (returnStderr : Bool) : Except Exn Json :=
  let r := env.az (azArgv cmd args)
  let stdout := pyStrip r.stdout
  let stderr := pyStrip r.stderr
  if r.returncode ≠ 0 then .error (.azureError stderr)
  else if returnStderr then .ok (.str stderr)
  else if stdout ≠ "" then (env.jsonLoads stdout).mapError .valueError
  else .ok (.str "")

/-! ## Tenant-ID discovery `_get_tenant_id` -/

/-- The URL `_get_tenant_id` opens for a subscription ID. -/
def tenantUrl (subscriptionId : String) : String :=
  "https://management.azure.com/subscriptions/" ++ subscriptionId ++
    "?api-version=2018-03-01-01.6.1"

/-- Case-insensitive header lookup: both `'WWW-Authenticate' in e.headers`
and `e.headers['WWW-Authenticate']` on an `email.message.Message` compare
header names case-insensitively and yield the first match. -/
def headerLookup (headers : List (String × String)) (name : String) :
    Option String :=
  (headers.find? (fun h => h.1.data.map asciiLower == name.data.map asciiLower)).map
    (fun h => h.2)

/-- The literal head of the pattern `authorization_uri="[^"]*/([^/"]*)"`. -/
def authLit : String := "authorization_uri=" ++ ⟨[quoteChar]⟩

/-- Attempt of the tail of the regular expression at one candidate
position, `t` being the text after the literal `authorization_uri="`: the
quoted value runs to the next double quote (the match fails without one),
must contain a slash, and the capture is the part after the last slash —
exactly what the greedy `[^"]*` followed by `/([^/"]*)"` matches. -/
def authSegment (t : List Char) : Option String :=
  let content := t.takeWhile (fun c => !(c == quoteChar))
  if content.length == t.length then none
  else if content.contains '/' then
    some ⟨(content.reverse.takeWhile (fun c => !(c == '/'))).reverse⟩
  else none

/-- Model of `re.search(r'authorization_uri="[^"]*/([^/"]*)"', s)`: the
leftmost occurrence of the literal head whose tail also matches wins,
and the returned string is the capture group. -/
def searchAuthUri : List Char → Option String
  | [] => none
  | c :: rest =>
    if authLit.data.isPrefixOf (c :: rest) then
      match authSegment ((c :: rest).drop authLit.length) with
      | some seg => some seg
      | none => searchAuthUri rest
    else searchAuthUri rest

/-- Translation of `_get_tenant_id` (lines 220-241): open the management
URL without credentials; on a success or a missing/unmatchable
`WWW-Authenticate` header return `None` (logging an error), on a matching
header return the capture — the final path segment of the
`authorization_uri`.  A non-HTTP failure of `urlopen` propagates. -/
def get_tenant_id (env : Env) (subscriptionId : String) :
    Except Exn (Option String) :=
  match env.urlopen (tenantUrl subscriptionId) with
  | .success => .ok none
  | .failure msg => .error (.urlError msg)
  | .httpError headers =>
    match headerLookup headers "WWW-Authenticate" with
    | none => .ok none
    | some www =>
      match searchAuthUri www.data with
      | none => .ok none
      | some seg => .ok (some seg)

/-! ## The string elision helper `_elide` -/

/-- Translation of `_elide` (lines 206-217).  Python's `hl` is the float
`(max_len - len(ellipsis)) / 2`; `floor(hl)` and `ceil(hl)` are the
integer floor and ceiling, written here with division by the positive
constant 2 (division on `Int` is Euclidean, which for a positive divisor
is floor division, and `ceil (x / 2) = floor ((x + 1) / 2)`).  The head
is `s[:headl]` and the tail is `s[-taill:]`, with Python slice
semantics — including `s[-0:]` being the whole string. -/
def elide (s : String) (maxLen : Int) (ellipsis : String) : String :=
  if (s.length : Int) > maxLen then
    let hl2 : Int := maxLen - (ellipsis.length : Int)
    let headl : Int := hl2 / 2
    let taill : Int := (hl2 + 1) / 2
    ⟨pySliceTo s.data headl ++ ellipsis.data ++ pySliceFrom s.data (-taill)⟩
  else s

/-- The `_elide` call with the default ellipsis `'...'`. -/
def elideD (s : String) (maxLen : Int) : String :=
  elide s maxLen "..."

/-! ## `login_cli` -/

/-- The store key `'charm.azure.sub-id'`. -/
def subIdKey : String := "charm.azure.sub-id"

/-- The store key `'charm.azure.vm-identities'`. -/
def vmIdentKey : String := "charm.azure.vm-identities"

/-- The store key `'charm.azure.roles'`. -/
def rolesKey : String := "charm.azure.roles"

/-- Subscript of the credentials mapping followed by the string check:
`creds_data[k]` must exist and (because the value is then handed to
`subprocess.run` / `re.sub`, which reject other types) be a string. -/
def credStr (creds : Json) (k : String) : Except Exn String :=
  match jIndex creds k with
  | .error e => .error e
  | .ok v => asStr v

/-- The argument vector of the `az login` invocation of `login_cli`. -/
def loginArgv (appId appPass tenantId : String) : List String :=
  azArgv "login" ["--service-principal", "-u", appId, "-p", appPass,
    "-t", tenantId]

/-- The redaction of `login_cli`'s except-clause (lines 100-103): the
occurrences of the application ID, then of the application password, then
of the tenant ID are substituted by placeholders, in that order. -/
def redact (appId appPass tenantId msg : String) : String :=
  pyStrSub tenantId "<tenant-id>"
    (pyStrSub appPass "<app-pass>" (pyStrSub appId "<app-id>" msg))

/-- Translation of `login_cli` (lines 77-105): read the three credential
fields, resolve the tenant ID, force a logout (an `AzureError` from it is
swallowed), log in as the service principal, and on success cache the
subscription ID under `'charm.azure.sub-id'`.  An `AzureError` from the
login is re-raised with the credentials redacted from its message.  A
`None` tenant ID reaches `subprocess.run` as an argument and raises
`TypeError` there, before any `az login` process starts. -/
def login_cli (env : Env) (st : Store) (creds : Json) : Outcome Unit :=
  match credStr creds "application-id" with
  | .error e => ⟨.error e, st, []⟩
  | .ok appId =>
  match credStr creds "application-password" with
  | .error e => ⟨.error e, st, []⟩
  | .ok appPass =>
  match credStr creds "subscription-id" with
  | .error e => ⟨.error e, st, []⟩
  | .ok subId =>
  match get_tenant_id env subId with
  | .error e => ⟨.error e, st, []⟩
  | .ok tenantOpt =>
    match azure env "logout" [] false with
    | .error (.azureError _) | .ok _ =>
      match tenantOpt with
      | none =>
        ⟨.error (.typeError "argument of subprocess.run is None"), st,
          [azArgv "logout" []]⟩
      | some tenantId =>
        match azure env "login" ["--service-principal", "-u", appId,
            "-p", appPass, "-t", tenantId] false with
        | .ok _ =>
          ⟨.ok (), kvSet st subIdKey (.str subId),
            [azArgv "logout" [], loginArgv appId appPass tenantId]⟩
        | .error (.azureError m) =>
          ⟨.error (.azureError (redact appId appPass tenantId m)), st,
            [azArgv "logout" [], loginArgv appId appPass tenantId]⟩
        | .error e =>
          ⟨.error e, st, [azArgv "logout" [], loginArgv appId appPass tenantId]⟩
    | .error e => ⟨.error e, st, [azArgv "logout" []]⟩

/-! ## `ensure_msi`, `tag_instance` -/

/-- The request object the charm interface hands to the operations. -/
structure Request where
  vm_id : String
  vm_name : String
  resource_group : String
  instance_tags : List (String × String)

/-- Translation of `_get_msi` (lines 264-269): the stored VM→MSI map
(default `{}`), looked up at the VM ID with `dict.get`.  On a stored
value that is not a dictionary, `.get` raises `AttributeError`. -/
def get_msi (st : Store) (vmId : String) : Except Exn (Option Json) :=
  match kvGet st vmIdentKey with
  | none => .ok none
  | some (.obj fs) => .ok (List.lookup vmId fs)
  | some _ => .error (.attributeError "value has no attribute get")

/-- The argument vector of the `az vm identity assign` invocation. -/
def msiAssignArgv (r : Request) : List String :=
  azArgv "vm" ["identity", "assign", "--name", r.vm_name,
    "--resource-group", r.resource_group]

/-- Translation of `ensure_msi` (lines 108-118): when the stored identity
for the request's VM is missing or falsy, run `az vm identity assign`,
and record the `systemAssignedIdentity` of the parsed result under the
VM ID in the persisted VM→MSI map; otherwise do nothing. -/
def ensure_msi (env : Env) (st : Store) (r : Request) : Outcome Unit :=
  match get_msi st r.vm_id with
  | .error e => ⟨.error e, st, []⟩
  | .ok msiOpt =>
    if truthy msiOpt then ⟨.ok (), st, []⟩
    else
      match azure env "vm" ["identity", "assign", "--name", r.vm_name,
          "--resource-group", r.resource_group] false with
      | .error e => ⟨.error e, st, [msiAssignArgv r]⟩
      | .ok result =>
        match jIndex result "systemAssignedIdentity" with
        | .error e => ⟨.error e, st, [msiAssignArgv r]⟩
        | .ok msi =>
          match kvGet st vmIdentKey with
          | some (.obj fs) =>
            ⟨.ok (), kvSet st vmIdentKey (.obj (setField fs r.vm_id msi)),
              [msiAssignArgv r]⟩
          | none =>
            ⟨.ok (), kvSet st vmIdentKey (.obj [(r.vm_id, msi)]),
              [msiAssignArgv r]⟩
          | some _ =>
            ⟨.error (.typeError "value does not support item assignment"),
              st, [msiAssignArgv r]⟩

/-- The argument vector of the `az vm update` invocation of
`tag_instance`: one `tags.<key>=<value>` setter per tag. -/
def tagArgv (r : Request) : List String :=
  azArgv "vm" (["update", "--name", r.vm_name, "--resource-group",
    r.resource_group, "--set"] ++
    r.instance_tags.map (fun tv => "tags." ++ tv.1 ++ "=" ++ tv.2))

/-- Translation of `tag_instance` (lines 121-130): one `az vm update`
invocation setting every requested tag. -/
def tag_instance (env : Env) (st : Store) (r : Request) : Outcome Unit :=
  match azure env "vm" (["update", "--name", r.vm_name, "--resource-group",
      r.resource_group, "--set"] ++
      r.instance_tags.map (fun tv => "tags." ++ tv.1 ++ "=" ++ tv.2)) false with
  | .ok _ => ⟨.ok (), st, [tagArgv r]⟩
  | .error e => ⟨.error e, st, [tagArgv r]⟩

/-! ## `_get_role`, `_assign_role` and the `enable_*` operations -/

/-- String rendering Python's `str.format` applies to a non-string
argument; the module only ever stores strings under
`'charm.azure.sub-id'`, and a missing key renders as `None`. -/
def pyStrOf : Option Json → String
  | none => "None"
  | some (.str s) => s
  | some .null => "None"
  | some (.bool b) => if b then "True" else "False"
  | some (.num n) => toString n
  | some (.arr _) => "[...]"
  | some (.obj _) => "{...}"

/-- The path of the role definition file for a short role name. -/
def roleFilePath (roleName : String) : String :=
  "files/roles/" ++ roleName ++ ".json"

/-- The argument vector of the `az role definition create` invocation,
with the updated role document serialized by `json.dumps`. -/
def roleCreateArgv (env : Env) (roleData : Json) : List String :=
  azArgv "role" ["definition", "create", "--role-definition",
    env.jsonDumps roleData]

/-- Translation of `_get_role` (lines 272-300): return the cached full
name when the short name is a key of the stored role cache (the module
only ever produces string role names; a non-string cached value — only
possible through an external store write — is rejected as the
`TypeError` that `subprocess.run` would raise on it); otherwise
read `files/roles/<name>.json`, substitute the cached subscription ID
into `Name` and the first `AssignableScopes` entry, run
`az role definition create` with the updated document — swallowing an
`AzureError` whose message contains `'already exists'`, re-raising any
other — and return the full name.  The source then updates only its
local `known_roles` dictionary and never calls
`kv().set('charm.azure.roles', ...)`, so the returned store is unchanged
on every path. -/
def get_role (env : Env) (st : Store) (roleName : String) : Outcome String :=
  match kvGet st rolesKey with
  | some (.obj knownRoles) =>
    match List.lookup roleName knownRoles with
    | some v =>
      match asStr v with
      | .ok full => ⟨.ok full, st, []⟩
      | .error e => ⟨.error e, st, []⟩
    | none => getRoleCreate env st roleName knownRoles
  | none => getRoleCreate env st roleName []
  | some _ => ⟨.error (.typeError "argument is not a mapping"), st, []⟩
where
  /-- The cache-miss path of `_get_role`, lines 285-300. -/
  getRoleCreate (env : Env) (st : Store) (roleName : String)
      (_knownRoles : List (String × Json)) : Outcome String :=
    let subId := pyStrOf (kvGet st subIdKey)
    match env.roleFile roleName with
    | .error _ => ⟨.error .fileNotFound, st, []⟩
    | .ok text =>
    match env.jsonLoads text with
    | .error m => ⟨.error (.valueError m), st, []⟩
    | .ok roleData =>
    match jIndex roleData "Name" with
    | .error e => ⟨.error e, st, []⟩
    | .ok nameJ =>
    match asStr nameJ with
    | .error e => ⟨.error e, st, []⟩
    | .ok namePat =>
    match pyFormat namePat subId with
    | .error e => ⟨.error e, st, []⟩
    | .ok roleFullname =>
    match jIndex roleData "AssignableScopes" with
    | .error e => ⟨.error e, st, []⟩
    | .ok scopesJ =>
    match scopesJ with
    | .arr [] => ⟨.error .indexError, st, []⟩
    | .arr (scope0 :: restScopes) =>
      (match asStr scope0 with
      | .error e => ⟨.error e, st, []⟩
      | .ok scopePat =>
      match pyFormat scopePat subId with
      | .error e => ⟨.error e, st, []⟩
      | .ok scope =>
        match roleData with
        | .obj fs =>
          let fs2 := setField fs "Name" (.str roleFullname)
          let fs3 := setField fs2 "AssignableScopes"
            (.arr (.str scope :: restScopes))
          let doc := Json.obj fs3
          match azure env "role" ["definition", "create",
              "--role-definition", env.jsonDumps doc] false with
          | .ok _ => ⟨.ok roleFullname, st, [roleCreateArgv env doc]⟩
          | .error (.azureError m) =>
            if pyIn "already exists" m then
              ⟨.ok roleFullname, st, [roleCreateArgv env doc]⟩
            else ⟨.error (.azureError m), st, [roleCreateArgv env doc]⟩
          | .error e => ⟨.error e, st, [roleCreateArgv env doc]⟩
        | _ => ⟨.error (.typeError "value does not support item assignment"),
            st, []⟩)
    | _ => ⟨.error (.typeError "value is not subscriptable by an int"), st, []⟩

/-- The argument vector of the `az role assignment create` invocation. -/
def assignArgv (msi : String) (r : Request) (roleName : String) :
    List String :=
  azArgv "role" ["assignment", "create", "--assignee-object-id", msi,
    "--resource-group", r.resource_group, "--role", roleName]

/-- Translation of `_assign_role` (lines 303-308): look up the VM's MSI in
the store and run one `az role assignment create`.  A missing (or
non-string) MSI reaches `subprocess.run` as `None` and raises `TypeError`
there, before any process starts. -/
def assign_role (env : Env) (st : Store) (r : Request) (roleName : String) :
    Outcome Unit :=
  match get_msi st r.vm_id with
  | .error e => ⟨.error e, st, []⟩
  | .ok none => ⟨.error (.typeError "argument of subprocess.run is None"), st, []⟩
  | .ok (some msiJ) =>
    match asStr msiJ with
    | .error e => ⟨.error e, st, []⟩
    | .ok msi =>
      match azure env "role" ["assignment", "create", "--assignee-object-id",
          msi, "--resource-group", r.resource_group, "--role", roleName] false with
      | .ok _ => ⟨.ok (), st, [assignArgv msi r roleName]⟩
      | .error e => ⟨.error e, st, [assignArgv msi r roleName]⟩

/-- Sequencing of `_get_role` followed by `_assign_role`, as the two
custom-role `enable_*` operations perform it. -/
def enableCustom (env : Env) (st : Store) (r : Request)
    (shortName : String) : Outcome Unit :=
  match get_role env st shortName with
  | ⟨.error e, st2, cs⟩ => ⟨.error e, st2, cs⟩
  | ⟨.ok full, st2, cs⟩ =>
    let o := assign_role env st2 r full
    ⟨o.res, o.store, cs ++ o.calls⟩

/-- Translation of `enable_instance_inspection` (lines 133-138). -/
def enable_instance_inspection (env : Env) (st : Store) (r : Request) :
    Outcome Unit :=
  enableCustom env st r "vm-reader"

/-- Translation of `enable_network_management` (lines 141-146). -/
def enable_network_management (env : Env) (st : Store) (r : Request) :
    Outcome Unit :=
  assign_role env st r "Network Contributor"

/-- Translation of `enable_security_management` (lines 149-154). -/
def enable_security_management (env : Env) (st : Store) (r : Request) :
    Outcome Unit :=
  assign_role env st r "Security Manager"

/-- Translation of `enable_block_storage_management` (lines 157-162). -/
def enable_block_storage_management (env : Env) (st : Store) (r : Request) :
    Outcome Unit :=
  enableCustom env st r "disk-manager"

/-- Translation of `enable_dns_management` (lines 165-170). -/
def enable_dns_management (env : Env) (st : Store) (r : Request) :
    Outcome Unit :=
  assign_role env st r "DNS Zone Contributor"

/-- Translation of `enable_object_storage_access` (lines 173-178). -/
def enable_object_storage_access (env : Env) (st : Store) (r : Request) :
    Outcome Unit :=
  assign_role env st r "Storage Blob Data Reader (Preview)"

/-- Translation of `enable_object_storage_management` (lines 181-186). -/
def enable_object_storage_management (env : Env) (st : Store) (r : Request) :
    Outcome Unit :=
  assign_role env st r "Storage Blob Data Contributor (Preview)"

/-- Translation of `cleanup` (lines 189-193): the body is `pass`. -/
def cleanup (st : Store) : Outcome Unit :=
  ⟨.ok (), st, []⟩

/-! ## `get_credentials` -/

/-- The `subprocess.run(['credential-get'], check=True, ...)` step of
`get_credentials`, as the exception it raises or the stdout it
captures. -/
def credGetStep (env : Env) : Except Exn String :=
  match env.credentialGet with
  | .notFound => .error .fileNotFound
  | .failed stderr => .error (.calledProcessError stderr)
  | .succeeded out => .ok out

/-- The credentials-config fallback of `get_credentials` (lines 62-74):
when the config value is truthy, base64-decode it and hand the decoded
string to `login_cli`; every exception in that block is swallowed
(`status.blocked(...)`, return `False`).  `login_cli` receives a string
where it expects a mapping, so its field subscript raises `TypeError`,
which this block also swallows.  With a falsy config value the function
reports the pending `no_creds_msg` through `status.blocked` and returns
`False` (status messages are not modelled). -/
def configFallback (env : Env) (st : Store) : Outcome Bool :=
  if env.configCredentials = "" then ⟨.ok false, st, []⟩
  else
    match env.b64decode env.configCredentials with
    | .error _ => ⟨.ok false, st, []⟩
    | .ok decoded =>
      let o := login_cli env st (.str decoded)
      match o.res with
      | .ok _ => ⟨.ok true, o.store, o.calls⟩
      | .error _ => ⟨.ok false, o.store, o.calls⟩

/-- Translation of `get_credentials` (lines 37-74): try the Juju trust
hook tool first — a `FileNotFoundError` falls through to the config, a
`CalledProcessError` whose stderr lacks `'permission denied'` is
re-raised, one reporting it falls through — then parse the YAML, take
`creds['credential']['attributes']` and log in; errors of those steps
(including an `AzureError` from `login_cli`) propagate.  Otherwise use
the credentials config fallback. -/
def get_credentials (env : Env) (st : Store) : Outcome Bool :=
  match credGetStep env with
  | .ok out =>
    (match env.yamlLoad out with
    | .error m => ⟨.error (.valueError m), st, []⟩
    | .ok creds =>
      match jIndex creds "credential" with
      | .error e => ⟨.error e, st, []⟩
      | .ok credJ =>
      match jIndex credJ "attributes" with
      | .error e => ⟨.error e, st, []⟩
      | .ok credsData =>
        let o := login_cli env st credsData
        match o.res with
        | .ok _ => ⟨.ok true, o.store, o.calls⟩
        | .error e => ⟨.error e, o.store, o.calls⟩)
  | .error .fileNotFound => configFallback env st
  | .error (.calledProcessError stderr) =>
    if pyIn "permission denied" stderr then configFallback env st
    else ⟨.error (.calledProcessError stderr), st, []⟩
  | .error e => ⟨.error e, st, []⟩

/-! ## Concrete environments used by counterexamples and evaluations -/

/-- A credentials mapping with the three fields `login_cli` reads. -/
def credsObj (appId appPass subId : String) : Json :=
  .obj [("application-id", .str appId), ("application-password", .str appPass),
    ("subscription-id", .str subId)]

/-- A double quote as a one-character string. -/
def dq : String := ⟨[quoteChar]⟩

/-- The role document of `files/roles/vm-reader.json` as decoded for the
runs below: a `Name` and one `AssignableScopes` entry, neither holding a
format placeholder, so `str.format` leaves them unchanged. -/
def roleJsonC2 : Json :=
  .obj [("Name", .str "charm-vm-reader"),
    ("AssignableScopes", .arr [.str "/subscriptions/sub-1"])]

/-- Environment of the `_get_role` runs: every `az` process succeeds with
empty output, the role file for `vm-reader` exists and decodes to
`roleJsonC2`, and `json.dumps` renders the updated document as
`"role-doc"`. -/
def envC2 : Env where
  az := fun _ => ⟨0, "", ""⟩
  urlopen := fun _ => .failure "unused"
  jsonLoads := fun s => if s = "vm-reader-file" then .ok roleJsonC2 else .error "bad json"
  jsonDumps := fun _ => "role-doc"
  yamlLoad := fun _ => .error "unused"
  b64decode := fun _ => .error "unused"
  roleFile := fun n => if n = "vm-reader" then .ok "vm-reader-file" else .error "missing"
  credentialGet := .notFound
  configCredentials := ""

/-- Environment of the `get_credentials` counterexample: the
`credential-get` hook tool is absent (`FileNotFoundError`) and the
`credentials` config is unset. -/
def envC4 : Env where
  az := fun _ => ⟨0, "", ""⟩
  urlopen := fun _ => .failure "unused"
  jsonLoads := fun _ => .error "unused"
  jsonDumps := fun _ => ""
  yamlLoad := fun _ => .error "unused"
  b64decode := fun _ => .error "unused"
  roleFile := fun _ => .error "missing"
  credentialGet := .notFound
  configCredentials := ""

/-- Environment of the redaction counterexample: `az logout` succeeds
quietly, the tenant-ID probe resolves tenant `tid-1`, and every other
`az` invocation (the login) fails with stderr `"zzzx"`. -/
def envC9 : Env where
  az := fun argv => if argv = azArgv "logout" [] then ⟨0, "", ""⟩ else ⟨1, "", "zzzx"⟩
  urlopen := fun _ => .httpError
    [("WWW-Authenticate",
      "Bearer authorization_uri=" ++ dq ++ "https://login.windows.net/tid-1" ++ dq)]
  jsonLoads := fun _ => .error "unused"
  jsonDumps := fun _ => ""
  yamlLoad := fun _ => .error "unused"
  b64decode := fun _ => .error "unused"
  roleFile := fun _ => .error "missing"
  credentialGet := .notFound
  configCredentials := ""

/-- The request of the concrete `ensure_msi` run. -/
def reqOK : Request :=
  { vm_id := "vm-1", vm_name := "vmname-1", resource_group := "rg-1",
    instance_tags := [("owner", "test")] }

/-- Environment of the successful concrete runs: the tenant probe
resolves `tid-1`, `az vm identity assign` prints a document whose
`systemAssignedIdentity` is `msi-1`, and every other `az` invocation
succeeds with empty output. -/
def envOK : Env where
  az := fun argv =>
    if argv = msiAssignArgv reqOK then ⟨0, "msi-doc", ""⟩ else ⟨0, "", ""⟩
  urlopen := fun _ => .httpError
    [("WWW-Authenticate",
      "Bearer authorization_uri=" ++ dq ++ "https://login.windows.net/tid-1" ++ dq)]
  jsonLoads := fun s =>
    if s = "msi-doc" then .ok (.obj [("systemAssignedIdentity", .str "msi-1")])
    else .error "bad json"
  jsonDumps := fun _ => "unused"
  yamlLoad := fun _ => .error "unused"
  b64decode := fun _ => .error "unused"
  roleFile := fun _ => .error "missing"
  credentialGet := .notFound
  configCredentials := ""

/-- Whether an `az` argument vector is a role-assignment invocation
(`az role assignment create ...`). -/
def isAssignCall (argv : List String) : Bool :=
  argv.take 4 == ["az", "role", "assignment", "create"]

/-- Whether an `az` argument vector is a role-definition-creation
invocation (`az role definition create ...`). -/
def isCreateCall (argv : List String) : Bool :=
  argv.take 4 == ["az", "role", "definition", "create"]

/-- Trace shape of an operation that assigns one built-in role: exactly
one role-assignment invocation on a normal return, never a
role-definition creation, at most one `az` invocation in any case. -/
def assignSpec (o : Outcome Unit) : Prop :=
  (o.res = .ok () → List.countP isAssignCall o.calls = 1)
  ∧ List.countP isCreateCall o.calls = 0
  ∧ o.calls.length ≤ 1

/-- Trace shape of an operation that ensures a custom role and assigns
it: exactly one role-assignment invocation on a normal return, at most
one role-definition creation, at most two `az` invocations in any case,
and no creation at all when the store's role cache already has the short
name. -/
def customSpec (st : Store) (shortName : String) (o : Outcome Unit) : Prop :=
  (o.res = .ok () → List.countP isAssignCall o.calls = 1)
  ∧ List.countP isCreateCall o.calls ≤ 1
  ∧ o.calls.length ≤ 2
  ∧ (∀ fs v, kvGet st rolesKey = some (.obj fs) →
      List.lookup shortName fs = some v →
      List.countP isCreateCall o.calls = 0)

/-! ## Theorems -/

/-- Claim C5: `_azure` raises `AzureError` carrying the stripped stderr
exactly when the `az` subprocess exits nonzero; on a zero exit it returns
the stripped stderr when `return_stderr` is set, hands the stripped
stdout straight to JSON parsing when it is non-empty (a parse failure
raising `ValueError`, not `AzureError`), and returns the empty string
otherwise. -/
theorem azure_c5 (env : Env) (cmd : String) (args : List String)
    (returnStderr : Bool) :
    ((∃ m, azure env cmd args returnStderr = .error (.azureError m)) ↔
      (env.az (azArgv cmd args)).returncode ≠ 0)
    ∧ ((env.az (azArgv cmd args)).returncode ≠ 0 →
        azure env cmd args returnStderr
          = .error (.azureError (pyStrip (env.az (azArgv cmd args)).stderr)))
    ∧ ((env.az (azArgv cmd args)).returncode = 0 → returnStderr = true →
        azure env cmd args returnStderr
          = .ok (.str (pyStrip (env.az (azArgv cmd args)).stderr)))
    ∧ ((env.az (azArgv cmd args)).returncode = 0 → returnStderr = false →
        pyStrip (env.az (azArgv cmd args)).stdout ≠ "" →
        azure env cmd args returnStderr
          = (env.jsonLoads (pyStrip (env.az (azArgv cmd args)).stdout)).mapError
              .valueError)
    ∧ ((env.az (azArgv cmd args)).returncode = 0 → returnStderr = false →
        pyStrip (env.az (azArgv cmd args)).stdout = "" →
        azure env cmd args returnStderr = .ok (.str "")) := by
  simp only [azure]
  refine ⟨⟨?_, ?_⟩, ?_, ?_, ?_, ?_⟩
  · rintro ⟨m, hm⟩
    by_cases hrc : (env.az (azArgv cmd args)).returncode ≠ 0
    · exact hrc
    · exfalso
      rw [if_neg hrc] at hm
      split at hm
      · exact Except.noConfusion hm
      · split at hm
        · cases henv : env.jsonLoads (pyStrip (env.az (azArgv cmd args)).stdout) with
          | ok j => rw [henv] at hm; exact Except.noConfusion hm
          | error m2 =>
            rw [henv] at hm
            simp only [Except.mapError] at hm
            exact Exn.noConfusion (Except.error.inj hm)
        · exact Except.noConfusion hm
  · intro h
    exact ⟨_, if_pos h⟩
  · intro h
    rw [if_pos h]
  · intro h0 hrs
    rw [if_neg (by simp [h0]), hrs, if_pos rfl]
  · intro h0 hrs hne
    rw [if_neg (by simp [h0]), hrs, if_neg (by simp), if_pos hne]
  · intro h0 hrs he
    rw [if_neg (by simp [h0]), hrs, if_neg (by simp), if_neg (by simp [he])]

/-- A capture returned by `authSegment` holds neither a slash nor a
double quote: it is the final path segment of the quoted URI. -/
theorem authSegment_chars (t : List Char) (seg : String)
    (h : authSegment t = some seg) :
    ∀ c ∈ seg.data, (!(c == '/') && !(c == quoteChar)) = true := by
  simp only [authSegment] at h
  split at h
  · exact Option.noConfusion h
  · split at h
    · cases h
      intro c hc
      rw [List.mem_reverse] at hc
      have hslash := List.mem_takeWhile_imp hc
      have hmem : c ∈ t.takeWhile (fun c => !(c == quoteChar)) := by
        rw [← List.mem_reverse]
        exact (List.takeWhile_sublist _).subset hc
      have hquote := List.mem_takeWhile_imp hmem
      simp only [hslash, hquote, Bool.and_self]
    · exact Option.noConfusion h

/-- Claim C1: `_get_tenant_id` requests the management URL built from the
subscription ID without credentials; it returns `None` when the request
succeeds, when the HTTP error has no `WWW-Authenticate` header, and when
the `authorization_uri` pattern is not found in that header; and when the
pattern matches it returns the capture — which holds no slash and no
quote, i.e. the final path segment of the `authorization_uri` value. -/
theorem get_tenant_id_c1 (env : Env) (sub : String) :
    tenantUrl sub = "https://management.azure.com/subscriptions/" ++ sub
        ++ "?api-version=2018-03-01-01.6.1"
    ∧ (env.urlopen (tenantUrl sub) = .success → get_tenant_id env sub = .ok none)
    ∧ (∀ headers, env.urlopen (tenantUrl sub) = .httpError headers →
        (headerLookup headers "WWW-Authenticate" = none →
          get_tenant_id env sub = .ok none)
        ∧ (∀ www, headerLookup headers "WWW-Authenticate" = some www →
            get_tenant_id env sub = .ok (searchAuthUri www.data)))
    ∧ (∀ l seg, searchAuthUri l = some seg →
        ∀ c ∈ seg.data, (!(c == '/') && !(c == quoteChar)) = true) := by
  refine ⟨rfl, ?_, ?_, ?_⟩
  · intro h
    simp only [get_tenant_id, h]
  · intro headers hh
    constructor
    · intro hl
      simp only [get_tenant_id, hh, hl]
    · intro www hl
      simp only [get_tenant_id, hh, hl]
      cases hs : searchAuthUri www.data <;> rfl
  · intro l seg h
    induction l with
    | nil => exact Option.noConfusion h
    | cons c rest ih =>
      rw [searchAuthUri] at h
      split at h
      · split at h
        · cases h
          exact authSegment_chars _ _ (by assumption)
        · exact ih h
      · exact ih h

/-- Claim C10: `cleanup` is a no-op — for every state of the key-value
store it makes no `az` invocation, raises no exception, and leaves every
key of the store unchanged. -/
theorem cleanup_c10 (st : Store) : cleanup st = ⟨.ok (), st, []⟩ := rfl

/-- Counterexample to claim C8 as stated: for `s = "abcd"` and
`max_len = 3` we have `len(s) = 4 > 3`, yet `_elide` returns the
seven-character string `"...abcd"` — Python's `s[-0:]` is the whole
string — so the result's length is not at most `max_len`. -/
theorem elide_c8_cex :
    ("abcd" : String).length = 4
    ∧ elideD "abcd" 3 = "...abcd"
    ∧ ¬ (elideD "abcd" 3).length ≤ 3 := by
  refine ⟨rfl, rfl, ?_⟩
  decide

/-- Claim C8 as amended: provided `max_len` exceeds the length of the
default three-character ellipsis (`max_len ≥ 4`), `_elide` returns `s`
unchanged when `len(s) ≤ max_len`, and otherwise a string of length at
most `max_len` that is a prefix of `s`, then `'...'`, then a suffix of
`s`.  (For `max_len ≤ 3` the bound fails, see the counterexample.) -/
theorem elide_c8 (s : String) (maxLen : Int) (h4 : 4 ≤ maxLen) :
    ((s.length : Int) ≤ maxLen → elideD s maxLen = s)
    ∧ ((s.length : Int) > maxLen →
        ((elideD s maxLen).length : Int) ≤ maxLen
        ∧ ∃ a b : List Char, (elideD s maxLen).data = a ++ "...".data ++ b
            ∧ (∃ t2, a ++ t2 = s.data) ∧ (∃ t2, t2 ++ b = s.data)) := by
  constructor
  · intro hle
    unfold elideD elide
    rw [if_neg (by omega)]
  · intro hgt
    unfold elideD elide
    rw [if_pos hgt]
    have hell : ("..." : String).length = 3 := rfl
    rw [hell]
    have hlen : s.length = s.data.length := rfl
    have hhead : ¬ ((maxLen - (3 : Nat)) / 2 < 0) := by
      push_cast
      omega
    have htailpos : (0 : Int) < (maxLen - (3 : Nat) + 1) / 2 := by
      push_cast
      omega
    constructor
    · simp only [pySliceTo, pySliceFrom, if_neg hhead,
        if_pos (show -((maxLen - (3 : Nat) + 1) / 2) < 0 by omega)]
      simp only [String.length, List.length_append, List.length_take,
        List.length_drop, List.length_cons, List.length_nil]
      push_cast
      omega
    · refine ⟨pySliceTo s.data ((maxLen - (3 : Nat)) / 2),
        pySliceFrom s.data (-((maxLen - (3 : Nat) + 1) / 2)), rfl, ?_, ?_⟩
      · simp only [pySliceTo, if_neg hhead]
        exact ⟨_, List.take_append_drop _ _⟩
      · simp only [pySliceFrom,
          if_pos (show -((maxLen - (3 : Nat) + 1) / 2) < 0 by omega)]
        exact ⟨_, List.take_append_drop _ _⟩

/-- Witness of `elide_c8` at a concrete input: `s = "abcdefghij"`
(length 10) and `max_len = 5` give `"a...j"` — a prefix, the ellipsis
and a suffix, of length `5 ≤ max_len`. -/
theorem elide_c8_wit :
    ((("abcdefghij" : String).length : Int) ≤ 5 →
      elideD "abcdefghij" 5 = "abcdefghij")
    ∧ ((("abcdefghij" : String).length : Int) > 5 →
        ((elideD "abcdefghij" 5).length : Int) ≤ 5
        ∧ ∃ a b : List Char,
            (elideD "abcdefghij" 5).data = a ++ "...".data ++ b
            ∧ (∃ t2, a ++ t2 = ("abcdefghij" : String).data)
            ∧ (∃ t2, t2 ++ b = ("abcdefghij" : String).data)) :=
  elide_c8 "abcdefghij" 5 (by norm_num)

/-- Claim C2, the failing part evaluated (alongside the two parts that do
hold): a successful `login_cli` stores the subscription ID under
`'charm.azure.sub-id'` and a successful `ensure_msi` maps the request's
VM ID to its new identity under `'charm.azure.vm-identities'`, but after
`_get_role` returns the store still has no `'charm.azure.roles'` key: the
source updates only its local `known_roles` dictionary and never calls
`kv().set('charm.azure.roles', ...)`. -/
theorem state_c2_bug :
    kvGet (login_cli envOK [] (credsObj "app-1" "pw-1" "sub-1")).store subIdKey
      = some (.str "sub-1")
    ∧ (login_cli envOK [] (credsObj "app-1" "pw-1" "sub-1")).res = .ok ()
    ∧ kvGet (ensure_msi envOK [] reqOK).store vmIdentKey
      = some (.obj [("vm-1", .str "msi-1")])
    ∧ (ensure_msi envOK [] reqOK).res = .ok ()
    ∧ (get_role envC2 [] "vm-reader").res = .ok "charm-vm-reader"
    ∧ (get_role envC2 [] "vm-reader").store = []
    ∧ kvGet (get_role envC2 [] "vm-reader").store rolesKey = none :=
  ⟨rfl, rfl, rfl, rfl, rfl, rfl, rfl⟩

/-- Claim C3, the failing behaviour evaluated: because `_get_role` never
persists its role cache, a second call with the same short name invokes
`az role definition create` again (the trace of each of the two
successive calls holds the creation invocation), even though both calls
return the same full role name. -/
theorem get_role_c3_bug :
    (get_role envC2 [] "vm-reader").calls
      = [["az", "role", "definition", "create", "--role-definition", "role-doc"]]
    ∧ (get_role envC2 (get_role envC2 [] "vm-reader").store "vm-reader").calls
      = [["az", "role", "definition", "create", "--role-definition", "role-doc"]]
    ∧ (get_role envC2 (get_role envC2 [] "vm-reader").store "vm-reader").res
      = .ok "charm-vm-reader"
    ∧ (get_role envC2 [] "vm-reader").res = .ok "charm-vm-reader" :=
  ⟨rfl, rfl, rfl, rfl⟩

/-- A fresh binding is what `kvGet` finds after `kvSet`. -/
theorem kvGet_kvSet_self (st : Store) (k : String) (v : Json) :
    kvGet (kvSet st k v) k = some v := by
  simp [kvGet, kvSet, List.lookup]

/-- A fresh binding is what lookup finds after a dict item assignment. -/
theorem lookup_setField_self (fs : List (String × Json)) (k : String)
    (v : Json) : List.lookup k (setField fs k v) = some v := by
  induction fs with
  | nil => simp [setField, List.lookup]
  | cons e rest ih =>
    by_cases heq : e.1 = k
    · simp [setField, heq, List.lookup]
    · rw [setField]
      rw [if_neg heq, List.lookup,
        show (k == e.1) = false from beq_eq_false_iff_ne.mpr (Ne.symm heq)]
      exact ih

/-- Claim C7: `ensure_msi` enables an identity only when none is
recorded.  When the persisted VM→MSI map already holds a (truthy)
identity for the request's VM, `ensure_msi` makes no `az` invocation and
returns the store unchanged.  Otherwise (no map, no entry, or a falsy
entry) it runs exactly the `az vm identity assign` invocation, and — when
that invocation succeeds and its parsed output carries a
`systemAssignedIdentity` — it returns normally with the store mapping the
VM ID to that identity. -/
theorem ensure_msi_c7 (env : Env) (st : Store) (r : Request) :
    (∀ fs v, kvGet st vmIdentKey = some (.obj fs) →
        List.lookup r.vm_id fs = some v → jFalsy v = false →
        ensure_msi env st r = ⟨.ok (), st, []⟩)
    ∧ (∀ mo, get_msi st r.vm_id = .ok mo → truthy mo = false →
        (ensure_msi env st r).calls = [msiAssignArgv r]
        ∧ (∀ res msi,
            azure env "vm" ["identity", "assign", "--name", r.vm_name,
              "--resource-group", r.resource_group] false = .ok res →
            jIndex res "systemAssignedIdentity" = .ok msi →
            (ensure_msi env st r).res = .ok ()
            ∧ ∃ fs2, kvGet (ensure_msi env st r).store vmIdentKey
                = some (.obj fs2)
              ∧ List.lookup r.vm_id fs2 = some msi)) := by
  constructor
  · intro fs v hmap hentry hfalsy
    have hmsi : get_msi st r.vm_id = .ok (some v) := by
      simp only [get_msi, hmap, hentry]
    have htruthy : truthy (some v) = true := by
      simp [truthy, hfalsy]
    simp [ensure_msi, hmsi, htruthy]
  · intro mo hmsi hfalsy
    have hobj : kvGet st vmIdentKey = none
        ∨ ∃ fs, kvGet st vmIdentKey = some (.obj fs) := by
      unfold get_msi at hmsi
      cases hk : kvGet st vmIdentKey with
      | none => exact Or.inl rfl
      | some j =>
        cases j with
        | obj fs => exact Or.inr ⟨fs, rfl⟩
        | null => rw [hk] at hmsi; exact Except.noConfusion hmsi
        | bool b => rw [hk] at hmsi; exact Except.noConfusion hmsi
        | num n => rw [hk] at hmsi; exact Except.noConfusion hmsi
        | str s => rw [hk] at hmsi; exact Except.noConfusion hmsi
        | arr xs => rw [hk] at hmsi; exact Except.noConfusion hmsi
    constructor
    · simp only [ensure_msi, hmsi, hfalsy, Bool.false_eq_true, if_false]
      split
      · rfl
      · split
        · rfl
        · split <;> rfl
    · intro res msi hok hidx
      simp only [ensure_msi, hmsi, hfalsy, Bool.false_eq_true, if_false,
        hok, hidx]
      rcases hobj with hnone | ⟨fs, hsome⟩
      · rw [hnone]
        exact ⟨rfl, [(r.vm_id, msi)], kvGet_kvSet_self .., by simp [List.lookup]⟩
      · rw [hsome]
        exact ⟨rfl, setField fs r.vm_id msi, kvGet_kvSet_self ..,
          lookup_setField_self ..⟩

/-- Trace shape of `_assign_role`: one `az role assignment create`
invocation when it reaches the subprocess, none otherwise. -/
theorem assign_role_trace (env : Env) (st : Store) (r : Request)
    (rn : String) : assignSpec (assign_role env st r rn) := by
  unfold assignSpec assign_role
  split
  · exact ⟨(fun h => nomatch h), rfl, Nat.zero_le 1⟩
  · exact ⟨(fun h => nomatch h), rfl, Nat.zero_le 1⟩
  · split
    · exact ⟨(fun h => nomatch h), rfl, Nat.zero_le 1⟩
    · split
      · exact ⟨(fun _ => rfl), rfl, Nat.le_refl 1⟩
      · exact ⟨(fun h => nomatch h), rfl, Nat.le_refl 1⟩

/-- Trace shape of the cache-miss path of `_get_role`: no
role-assignment invocation, at most one creation, at most one `az`
invocation. -/
theorem getRoleCreate_trace (env : Env) (st : Store) (rn : String)
    (kr : List (String × Json)) :
    List.countP isAssignCall (get_role.getRoleCreate env st rn kr).calls = 0
    ∧ List.countP isCreateCall (get_role.getRoleCreate env st rn kr).calls ≤ 1
    ∧ (get_role.getRoleCreate env st rn kr).calls.length ≤ 1 := by
  unfold get_role.getRoleCreate
  dsimp only
  repeat' split
  all_goals
    first
    | exact ⟨rfl, Nat.le_refl 1, Nat.le_refl 1⟩
    | exact ⟨rfl, Nat.zero_le 1, Nat.zero_le 1⟩

/-- Trace shape of `_get_role`: no role-assignment invocation, at most
one creation, at most one `az` invocation. -/
theorem get_role_trace (env : Env) (st : Store) (rn : String) :
    List.countP isAssignCall (get_role env st rn).calls = 0
    ∧ List.countP isCreateCall (get_role env st rn).calls ≤ 1
    ∧ (get_role env st rn).calls.length ≤ 1 := by
  unfold get_role
  split
  · split
    · split
      · exact ⟨rfl, Nat.zero_le 1, Nat.zero_le 1⟩
      · exact ⟨rfl, Nat.zero_le 1, Nat.zero_le 1⟩
    · exact getRoleCreate_trace ..
  · exact getRoleCreate_trace ..
  · exact ⟨rfl, Nat.zero_le 1, Nat.zero_le 1⟩

/-- On a role-cache hit `_get_role` makes no `az` invocation at all. -/
theorem get_role_cached (env : Env) (st : Store) (rn : String)
    (fs : List (String × Json)) (v : Json)
    (hmap : kvGet st rolesKey = some (.obj fs))
    (hentry : List.lookup rn fs = some v) :
    (get_role env st rn).calls = [] := by
  simp only [get_role, hmap, hentry]
  split <;> rfl

/-- Trace shape of the custom-role enables (`_get_role` then
`_assign_role`). -/
theorem enableCustom_trace (env : Env) (st : Store) (r : Request)
    (sn : String) : customSpec st sn (enableCustom env st r sn) := by
  obtain ⟨h1, h2, h3⟩ := get_role_trace env st sn
  rcases hge : get_role env st sn with ⟨res, st2, cs⟩
  rw [hge] at h1 h2 h3
  simp only at h1 h2 h3
  cases res with
  | error e =>
    simp only [enableCustom, hge]
    refine ⟨(fun h => nomatch h), h2, Nat.le_trans h3 (by omega), ?_⟩
    intro fs v hmap hentry
    have hempty := get_role_cached env st sn fs v hmap hentry
    rw [hge] at hempty
    simp only at hempty
    rw [hempty]
    rfl
  | ok full =>
    obtain ⟨a1, a2, a3⟩ := assign_role_trace env st2 r full
    simp only [enableCustom, hge]
    refine ⟨?_, ?_, ?_, ?_⟩
    · intro h
      simp only at h
      rw [List.countP_append, h1, a1 h]
    · rw [List.countP_append, a2]
      omega
    · rw [List.length_append]
      omega
    · intro fs v hmap hentry
      have hempty := get_role_cached env st sn fs v hmap hentry
      rw [hge] at hempty
      simp only at hempty
      rw [hempty, List.nil_append, a2]

/-- Claim C6: each public operation translates into at most the stated
`az` invocations — `ensure_msi` and `tag_instance` make at most one per
call (`tag_instance` exactly one), the built-in-role `enable_*`
operations make exactly one role-assignment invocation on a normal
return and never create a role definition, and the custom-role
`enable_*` operations make exactly one role-assignment invocation on a
normal return plus at most one role-definition creation — none when the
store's role cache already has the short name. -/
theorem ops_c6 (env : Env) (st : Store) (r : Request) :
    (ensure_msi env st r).calls.length ≤ 1
    ∧ (tag_instance env st r).calls.length = 1
    ∧ assignSpec (enable_network_management env st r)
    ∧ assignSpec (enable_security_management env st r)
    ∧ assignSpec (enable_dns_management env st r)
    ∧ assignSpec (enable_object_storage_access env st r)
    ∧ assignSpec (enable_object_storage_management env st r)
    ∧ customSpec st "vm-reader" (enable_instance_inspection env st r)
    ∧ customSpec st "disk-manager" (enable_block_storage_management env st r) := by
  refine ⟨?_, ?_, assign_role_trace .., assign_role_trace ..,
    assign_role_trace .., assign_role_trace .., assign_role_trace ..,
    enableCustom_trace .., enableCustom_trace ..⟩
  · unfold ensure_msi
    repeat' split
    all_goals first | exact Nat.zero_le 1 | exact Nat.le_refl 1
  · unfold tag_instance
    split <;> rfl

/-- Counterexample to claim C4 as stated: the `credential-get` step of
`get_credentials` raises `FileNotFoundError` — not an `AzureError` — and
`get_credentials` catches and swallows it, returning `False`. -/
theorem get_credentials_c4_cex :
    credGetStep envC4 = .error .fileNotFound
    ∧ get_credentials envC4 [] = ⟨.ok false, [], []⟩ :=
  ⟨rfl, rfl⟩

/-- Claim C4 as amended: `login_cli` and `_get_role` catch only
`AzureError` — `_get_role` swallows exactly a creation failure reporting
`'already exists'` and re-raises any other `AzureError`, while an
exception of another type (a missing role file) propagates uncaught;
`login_cli` swallows a failing logout — the `enable_*` operations catch
nothing (an `AzureError` of the assignment invocation propagates), but
`get_credentials` additionally catches `FileNotFoundError` (falling back
to the config), `subprocess.CalledProcessError` (re-raised — itself not
an `AzureError` — unless its stderr reports `'permission denied'`), and,
in the credentials-config fallback, every exception (swallowed, returning
`False`). -/
theorem handlers_c4 (env : Env) (st : Store) :
    (∀ rn text fs namePat full scopePat rest scope m,
        kvGet st rolesKey = none →
        env.roleFile rn = .ok text →
        env.jsonLoads text = .ok (.obj fs) →
        List.lookup "Name" fs = some (.str namePat) →
        pyFormat namePat (pyStrOf (kvGet st subIdKey)) = .ok full →
        List.lookup "AssignableScopes" fs = some (.arr (.str scopePat :: rest)) →
        pyFormat scopePat (pyStrOf (kvGet st subIdKey)) = .ok scope →
        azure env "role" ["definition", "create", "--role-definition",
          env.jsonDumps (.obj (setField (setField fs "Name" (.str full))
            "AssignableScopes" (.arr (.str scope :: rest))))] false
          = .error (.azureError m) →
        ((pyIn "already exists" m = true → (get_role env st rn).res = .ok full)
          ∧ (pyIn "already exists" m = false →
              (get_role env st rn).res = .error (.azureError m))))
    ∧ (∀ rn s, kvGet st rolesKey = none → env.roleFile rn = .error s →
        (get_role env st rn).res = .error .fileNotFound)
    ∧ (∀ appId appPass subId tenantId,
        get_tenant_id env subId = .ok (some tenantId) →
        (env.az (azArgv "logout" [])).returncode ≠ 0 →
        (env.az (loginArgv appId appPass tenantId)).returncode = 0 →
        pyStrip (env.az (loginArgv appId appPass tenantId)).stdout = "" →
        (login_cli env st (credsObj appId appPass subId)).res = .ok ())
    ∧ (∀ stderr, env.credentialGet = .failed stderr →
        pyIn "permission denied" stderr = false →
        get_credentials env st = ⟨.error (.calledProcessError stderr), st, []⟩)
    ∧ (∀ stderr, env.credentialGet = .failed stderr →
        pyIn "permission denied" stderr = true →
        get_credentials env st = configFallback env st)
    ∧ (env.credentialGet = .notFound →
        get_credentials env st = configFallback env st)
    ∧ (∀ d e, env.configCredentials ≠ "" →
        env.b64decode env.configCredentials = .ok d →
        (login_cli env st (.str d)).res = .error e →
        (configFallback env st).res = .ok false)
    ∧ (∀ r msi, get_msi st r.vm_id = .ok (some (.str msi)) →
        (env.az (assignArgv msi r "Network Contributor")).returncode ≠ 0 →
        (enable_network_management env st r).res =
          .error (.azureError
            (pyStrip (env.az (assignArgv msi r "Network Contributor")).stderr))) := by
  refine ⟨?_, ?_, ?_, ?_, ?_, ?_, ?_, ?_⟩
  · intro rn text fs namePat full scopePat rest scope m hmiss hrf hjl hname
      hfmt1 hscopes hfmt2 haz
    have hred : get_role env st rn = get_role.getRoleCreate env st rn [] := by
      unfold get_role
      rw [hmiss]
    rw [hred]
    unfold get_role.getRoleCreate
    dsimp only
    rw [hrf]
    dsimp only
    rw [hjl]
    dsimp only
    simp only [jIndex, hname, hscopes]
    dsimp only [asStr]
    rw [hfmt1]
    dsimp only
    rw [hfmt2]
    dsimp only
    rw [haz]
    dsimp only
    constructor
    · intro hex
      rw [if_pos hex]
    · intro hex
      rw [if_neg (by simp [hex])]
  · intro rn s hmiss hrf
    have hred : get_role env st rn = get_role.getRoleCreate env st rn [] := by
      unfold get_role
      rw [hmiss]
    rw [hred]
    unfold get_role.getRoleCreate
    dsimp only
    rw [hrf]
  · intro appId appPass subId tenantId hT hlogout hrc hstdout
    have hlogoutE : azure env "logout" [] false
        = .error (.azureError (pyStrip (env.az (azArgv "logout" [])).stderr)) := by
      unfold azure
      rw [if_pos hlogout]
    have hloginE : azure env "login" ["--service-principal", "-u", appId,
        "-p", appPass, "-t", tenantId] false = .ok (.str "") := by
      simp only [loginArgv, azArgv] at hrc hstdout
      unfold azure
      rw [if_neg (by simp [azArgv, hrc]), if_neg (by simp),
        if_neg (by simp [azArgv, hstdout])]
    have hc1 : credStr (credsObj appId appPass subId) "application-id"
        = .ok appId := rfl
    have hc2 : credStr (credsObj appId appPass subId) "application-password"
        = .ok appPass := rfl
    have hc3 : credStr (credsObj appId appPass subId) "subscription-id"
        = .ok subId := rfl
    unfold login_cli
    rw [hc1, hc2, hc3]
    dsimp only
    rw [hT]
    dsimp only
    rw [hlogoutE]
    dsimp only
    rw [hloginE]
  · intro stderr hcred hperm
    unfold get_credentials credGetStep
    rw [hcred]
    dsimp only
    rw [if_neg (by simp [hperm])]
  · intro stderr hcred hperm
    unfold get_credentials credGetStep
    rw [hcred]
    dsimp only
    rw [if_pos hperm]
  · intro hcred
    unfold get_credentials credGetStep
    rw [hcred]
  · intro d e hcfg hb64 hlog
    unfold configFallback
    rw [if_neg hcfg, hb64]
    dsimp only
    rw [hlog]
  · intro r msi hmsi hrc
    have haz : azure env "role" ["assignment", "create",
        "--assignee-object-id", msi, "--resource-group", r.resource_group,
        "--role", "Network Contributor"] false
        = .error (.azureError
            (pyStrip (env.az (assignArgv msi r "Network Contributor")).stderr)) := by
      simp only [assignArgv] at hrc
      unfold azure
      rw [if_pos (by simpa [azArgv] using hrc)]
      rfl
    unfold enable_network_management assign_role
    rw [hmsi]
    dsimp only [asStr]
    rw [haz]

/-- Claim C9 as amended: when the `az login` invocation fails,
`login_cli` re-raises `AzureError` whose message is the CLI's stripped
stderr with every occurrence of the application ID, then of the
application password, then of the tenant ID sequentially replaced by
`<app-id>`, `<app-pass>` and `<tenant-id>`.  The replacement removes the
occurrences present in the CLI output, but an inserted placeholder can
combine with adjacent characters to re-form a credential value, so the
raised message is not guaranteed to be free of the three values (see the
counterexample). -/
theorem login_cli_c9 (env : Env) (st : Store)
    (appId appPass subId tenantId : String)
    (hT : get_tenant_id env subId = .ok (some tenantId))
    (hlogout : (env.az (azArgv "logout" [])).returncode ≠ 0
      ∨ pyStrip (env.az (azArgv "logout" [])).stdout = "")
    (hFail : (env.az (loginArgv appId appPass tenantId)).returncode ≠ 0) :
    (login_cli env st (credsObj appId appPass subId)).res
      = .error (.azureError (redact appId appPass tenantId
          (pyStrip (env.az (loginArgv appId appPass tenantId)).stderr)))
    ∧ (login_cli env st (credsObj appId appPass subId)).store = st := by
  have hc1 : credStr (credsObj appId appPass subId) "application-id"
      = .ok appId := rfl
  have hc2 : credStr (credsObj appId appPass subId) "application-password"
      = .ok appPass := rfl
  have hc3 : credStr (credsObj appId appPass subId) "subscription-id"
      = .ok subId := rfl
  have hloginE : azure env "login" ["--service-principal", "-u", appId,
      "-p", appPass, "-t", tenantId] false
      = .error (.azureError
          (pyStrip (env.az (loginArgv appId appPass tenantId)).stderr)) := by
    simp only [loginArgv] at hFail
    unfold azure
    rw [if_pos (by simpa [azArgv] using hFail)]
    rfl
  have hlo : (∃ m, azure env "logout" [] false = .error (.azureError m))
      ∨ (∃ j, azure env "logout" [] false = .ok j) := by
    by_cases hrc : (env.az (azArgv "logout" [])).returncode ≠ 0
    · exact Or.inl ⟨_, by unfold azure; rw [if_pos hrc]⟩
    · rcases hlogout with h | h
      · exact absurd h hrc
      · refine Or.inr ⟨.str "", ?_⟩
        unfold azure
        rw [if_neg hrc, if_neg (by simp), if_neg (by simp [h])]
  rcases hlo with ⟨m, hm⟩ | ⟨j, hj⟩
  · unfold login_cli
    rw [hc1, hc2, hc3]
    dsimp only
    rw [hT]
    dsimp only
    rw [hm]
    dsimp only
    rw [hloginE]
    exact ⟨rfl, rfl⟩
  · unfold login_cli
    rw [hc1, hc2, hc3]
    dsimp only
    rw [hT]
    dsimp only
    rw [hj]
    dsimp only
    rw [hloginE]
    exact ⟨rfl, rfl⟩

/-- Witness of `login_cli_c9` at the concrete environment `envC9`: the
failing login's stderr `"zzzx"` is redacted to `"<app-pass>x"` and
re-raised, with the store unchanged. -/
theorem login_cli_c9_wit :
    (login_cli envC9 [] (credsObj "s>x" "zzz" "sub-1")).res
      = .error (.azureError (redact "s>x" "zzz" "tid-1"
          (pyStrip (envC9.az (loginArgv "s>x" "zzz" "tid-1")).stderr)))
    ∧ (login_cli envC9 [] (credsObj "s>x" "zzz" "sub-1")).store = [] :=
  login_cli_c9 envC9 [] "s>x" "zzz" "sub-1" "tid-1" rfl (Or.inr rfl) (by decide)

/-- Counterexample to claim C9 as stated: with application ID `"s>x"`,
application password `"zzz"` and tenant ID `"tid-1"` (none of which holds
a regular-expression metacharacter), a login failure whose stderr is
`"zzzx"` — which does not even contain the application ID — is re-raised
as `AzureError('<app-pass>x')`, and that message does contain the
application ID `"s>x"`: the `<app-pass>` placeholder combined with the
adjacent `x` re-forms it. -/
theorem login_cli_c9_cex :
    (login_cli envC9 [] (credsObj "s>x" "zzz" "sub-1")).res
      = .error (.azureError "<app-pass>x")
    ∧ pyIn "s>x" "<app-pass>x" = true
    ∧ pyIn "s>x" "zzzx" = false :=
  ⟨rfl, rfl, rfl⟩

end Az
